import Mathlib

/-!
Shallow embedding of `src/nimble/host/src/ble_l2cap.c`, the L2CAP
channel-multiplexing layer of the NimBLE host stack, together with proofs
about its header codec, MTU computation, receive pipeline, transmit
pipeline and channel pool.

Modelling conventions:
- An mbuf chain is modelled by its byte contents, a `List Nat` (each entry a
  `uint8_t` value).  `os_mbuf_adj(om, n)` on the front is `List.drop n`;
  `OS_MBUF_PKTHDR(om)->omp_len` is `List.length`.
- Machine integers are `Nat` with explicit `% 2 ^ 16` where wraparound can
  occur; C `int` arithmetic that can go negative is done in `Int`.
- A fatal `assert` is modelled by returning `none` from an `Option`-valued
  function: `none` is an abort, distinct from every returned error code.
- External collaborators that are not part of this source file
  (`os_mempool`, `os_mbuf_prepend`, `ble_hs_tx_data`, `ble_hs_conn_chan_find`)
  are modelled from the specification at their boundary; each such
  definition carries a doc comment saying so.
-/

namespace BleL2cap

/-- errno value returned for truncated or size-inconsistent frames
(`EMSGSIZE`).  Only its identity matters to the proofs, not the number. -/
def EMSGSIZE : Nat := 90

/-- errno value returned when a CID resolves to no channel (`ENOENT`). -/
def ENOENT : Nat := 2

/-- errno value returned on allocation failure (`ENOMEM`). -/
def ENOMEM : Nat := 12

/-- `BLE_L2CAP_HDR_SZ`: the fixed L2CAP header size, 4 bytes. -/
def BLE_L2CAP_HDR_SZ : Nat := 4

/-- `BLE_L2CAP_CHAN_MAX`: fixed capacity of the channel pool. -/
def BLE_L2CAP_CHAN_MAX : Nat := 32

/-- `BLE_L2CAP_CHAN_F_TXED_MTU`: flag bit recording that the local MTU has
been transmitted to the peer. -/
def BLE_L2CAP_CHAN_F_TXED_MTU : Nat := 1

/-- `BLE_HCI_PB_FULL`: packet-boundary flag value for a complete,
unfragmented frame.  Only its identity matters to the proofs. -/
def BLE_HCI_PB_FULL : Nat := 2

/-- An mbuf chain, modelled by its byte contents. -/
abbrev Mbuf := List Nat

/-- `struct ble_l2cap_hdr`: the 4-byte wire header, after decoding. -/
structure Ble_l2cap_hdr where
  blh_len : Nat
  blh_cid : Nat
  deriving DecidableEq, Repr

/-- `struct ble_l2cap_chan`: per-channel state.  `blc_rx_buf` is the
single in-flight receive-buffer slot (`NULL` = `none`).  The receive
callback `blc_rx_fn` is kept outside the structure (it is installed by the
channel's creator and never modified by this layer) so that channel states
retain decidable equality. -/
structure Ble_l2cap_chan where
  blc_cid : Nat
  blc_my_mtu : Nat
  blc_peer_mtu : Nat
  blc_default_mtu : Nat
  blc_flags : Nat
  blc_rx_buf : Option Mbuf
  deriving DecidableEq, Repr

/-- `struct hci_data_hdr`: lower-layer framing metadata — the
packet-boundary flag and the declared total data length (`uint16_t`). -/
structure HciDataHdr where
  pb : Nat
  hdh_len : Nat
  deriving DecidableEq, Repr

/-- The channel state produced by `memset(chan, 0, sizeof *chan)`. -/
def zeroChan : Ble_l2cap_chan :=
  { blc_cid := 0, blc_my_mtu := 0, blc_peer_mtu := 0, blc_default_mtu := 0,
    blc_flags := 0, blc_rx_buf := none }

/-- `ble_l2cap_chan_mtu`, the value computed before the trailing assert:
if the `TXED_MTU` flag is clear or the peer MTU is zero, the default MTU;
otherwise `min(blc_my_mtu, blc_peer_mtu)`. -/
def ble_l2cap_chan_mtu (chan : Ble_l2cap_chan) : Nat :=
  if chan.blc_flags &&& BLE_L2CAP_CHAN_F_TXED_MTU = 0 ∨ chan.blc_peer_mtu = 0 then
    chan.blc_default_mtu
  else
    Nat.min chan.blc_my_mtu chan.blc_peer_mtu

/-- The condition of the `assert(mtu >= chan->blc_default_mtu)` executed on
every call of `ble_l2cap_chan_mtu`. -/
def ble_l2cap_chan_mtu_assert (chan : Ble_l2cap_chan) : Prop :=
  chan.blc_default_mtu ≤ ble_l2cap_chan_mtu chan

instance (chan : Ble_l2cap_chan) : Decidable (ble_l2cap_chan_mtu_assert chan) := by
  unfold ble_l2cap_chan_mtu_assert; infer_instance

/-- The `txed_local_mtu` flag of the spec: bit `BLE_L2CAP_CHAN_F_TXED_MTU`
of `blc_flags`. -/
def txed_local_mtu (chan : Ble_l2cap_chan) : Prop :=
  chan.blc_flags &&& BLE_L2CAP_CHAN_F_TXED_MTU ≠ 0

instance (chan : Ble_l2cap_chan) : Decidable (txed_local_mtu chan) := by
  unfold txed_local_mtu; infer_instance

/-- `htole16` on a field: the two bytes of `x`, little-endian
(low byte first). -/
def le16_bytes (x : Nat) : List Nat :=
  [x % 256, x / 256 % 256]

/-- `ble_l2cap_parse_hdr`: copies 4 bytes out of the mbuf starting at
`off` (failing with `EMSGSIZE` when fewer are available, as
`os_mbuf_copydata` then returns nonzero) and decodes the two `uint16_t`
fields little-endian via `le16toh`. -/
def ble_l2cap_parse_hdr (om : Mbuf) (off : Nat) : Except Nat Ble_l2cap_hdr :=
  if off + BLE_L2CAP_HDR_SZ ≤ om.length then
    .ok { blh_len := om.getD off 0 + 256 * om.getD (off + 1) 0,
          blh_cid := om.getD (off + 2) 0 + 256 * om.getD (off + 3) 0 }
  else
    .error EMSGSIZE

/-- The 4 bytes written by `ble_l2cap_prepend_hdr` for a given payload
length and CID: bytes 0–1 the length little-endian, bytes 2–3 the CID
little-endian (`htole16` on each field of `struct ble_l2cap_hdr`). -/
def serialize_hdr (len cid : Nat) : List Nat :=
  le16_bytes len ++ le16_bytes cid

/-- `ble_l2cap_prepend_hdr` when `os_mbuf_prepend` succeeds: the header for
`omp_len = om.length` (a `uint16_t`, hence mod `2 ^ 16`) and `cid`,
followed by the original payload bytes. -/
def ble_l2cap_prepend_hdr (om : Mbuf) (cid : Nat) : Mbuf :=
  serialize_hdr (om.length % 2 ^ 16) (cid % 2 ^ 16) ++ om

/-- The registered receive handler (`blc_rx_fn`): invoked with the
connection, the channel (whose `blc_rx_buf` slot holds the inbound
payload), and the slot contents; returns its status and what it leaves in
the slot (it may consume or replace the buffer through the `&rxom`
pointer it is given). -/
abbrev RxFn := List Ble_l2cap_chan → Ble_l2cap_chan → Option Mbuf → Nat × Option Mbuf

/-- A connection's set of channels, for the channel-lookup collaborator. -/
abbrev Conn := List Ble_l2cap_chan

/-- Modelled from the spec: `ble_hs_conn_chan_find`, the external
connection-registry collaborator of §6 —
`find_channel(connection, cid) -> Channel-handle | NotFound`.  The
connection is its list of channels; lookup is by CID. -/
def ble_hs_conn_chan_find (conn : Conn) (cid : Nat) : Option Ble_l2cap_chan :=
  conn.find? (fun c => c.blc_cid == cid)

/-- Replacing the channel found by `ble_hs_conn_chan_find` (the first one
with the given CID) with its updated state, since in C the channel is
mutated in place through the returned pointer. -/
def conn_update : Conn → Nat → Ble_l2cap_chan → Conn
  | [], _, _ => []
  | c :: cs, cid, ch =>
      if c.blc_cid == cid then ch :: cs else c :: conn_update cs cid ch

/-- Result of `ble_l2cap_rx_payload`: the returned status, the channel's
state afterwards, how many times the handler was invoked, and the list of
buffers this layer passed to `os_mbuf_free_chain` (a `NULL` argument frees
nothing and is not recorded). -/
structure RxPayloadResult where
  rc : Nat
  chan : Ble_l2cap_chan
  handlerCalls : Nat
  disposed : List Mbuf
  deriving DecidableEq, Repr

/-- The buffers freed by `os_mbuf_free_chain(p)`: none when `p` is `NULL`. -/
def free_chain : Option Mbuf → List Mbuf
  | none => []
  | some b => [b]

/-- `ble_l2cap_rx_payload`: asserts the receive slot is empty (`none` =
fatal abort), installs `om` in `chan->blc_rx_buf`, invokes the handler
once with a pointer to the slot, then unconditionally frees whatever the
handler left in the slot, clears the slot, and returns the handler's
status. -/
def ble_l2cap_rx_payload (rxFn : RxFn) (conn : Conn) (chan : Ble_l2cap_chan)
    (om : Mbuf) : Option RxPayloadResult :=
  if chan.blc_rx_buf ≠ none then
    none
  else
    let chan1 := { chan with blc_rx_buf := some om }
    let call := rxFn conn chan1 chan1.blc_rx_buf
    some { rc := call.1,
           chan := { chan1 with blc_rx_buf := none },
           handlerCalls := 1,
           disposed := free_chain call.2 }

/-- Result of `ble_l2cap_rx`: the returned status, whether
`ble_hs_conn_chan_find` was reached, how many times a receive handler was
invoked, the connection's channels afterwards, and the buffers this layer
freed. -/
structure RxResult where
  rc : Nat
  lookupPerformed : Bool
  handlerCalls : Nat
  conn : Conn
  disposed : List Mbuf
  deriving DecidableEq, Repr

/-- `ble_l2cap_rx`: asserts the frame is unfragmented
(`BLE_HCI_DATA_PB(...) == BLE_HCI_PB_FULL`, `none` = fatal abort), parses
the 4-byte header at offset 0 (propagating its error), strips the header
with `os_mbuf_adj`, rejects a header length that differs from the
HCI-declared length minus 4 with `EMSGSIZE` (C `int` arithmetic, so the
subtraction is over `Int`), resolves the CID (failing with `ENOENT`), and
dispatches to `ble_l2cap_rx_payload`. -/
def ble_l2cap_rx (rxFn : RxFn) (conn : Conn) (hci_hdr : HciDataHdr)
    (om : Mbuf) : Option RxResult :=
  if hci_hdr.pb ≠ BLE_HCI_PB_FULL then
    none
  else
    match ble_l2cap_parse_hdr om 0 with
    | .error rc =>
        some { rc := rc, lookupPerformed := false, handlerCalls := 0,
               conn := conn, disposed := [] }
    | .ok l2cap_hdr =>
        let om1 := om.drop BLE_L2CAP_HDR_SZ
        if (l2cap_hdr.blh_len : Int) ≠ (hci_hdr.hdh_len : Int) - (BLE_L2CAP_HDR_SZ : Int) then
          some { rc := EMSGSIZE, lookupPerformed := false, handlerCalls := 0,
                 conn := conn, disposed := [] }
        else
          match ble_hs_conn_chan_find conn l2cap_hdr.blh_cid with
          | none =>
              some { rc := ENOENT, lookupPerformed := true, handlerCalls := 0,
                     conn := conn, disposed := [] }
          | some chan =>
              match ble_l2cap_rx_payload rxFn conn chan om1 with
              | none => none
              | some r =>
                  some { rc := r.rc, lookupPerformed := true,
                         handlerCalls := r.handlerCalls,
                         conn := conn_update conn l2cap_hdr.blh_cid r.chan,
                         disposed := r.disposed }

/-- Environment of one `ble_l2cap_tx` call: whether `os_mbuf_prepend`
inside `ble_l2cap_prepend_hdr` succeeds, and the status `ble_hs_tx_data`
returns (0 = success). -/
structure TxEnv where
  prependOk : Bool
  txRc : Nat
  deriving DecidableEq, Repr

/-- Observable outcome of one `ble_l2cap_tx` call: the returned status,
and how many times the original payload buffer and the framed buffer were
each disposed (freed by this layer or consumed by the transport).  On
successful prepend the framed buffer owns the payload bytes, so disposing
it disposes the payload. -/
structure TxOutcome where
  rc : Nat
  origDisposals : Nat
  framedDisposals : Nat
  deriving DecidableEq, Repr

/-- `ble_l2cap_tx`, instrumented for buffer ownership.

Modelled from the spec, for the collaborators that are not in this source
file: `os_mbuf_prepend` on failure returns `NULL` without freeing the
original chain and without returning it to the caller (§9: "a failed
header-prepend operation can result in the original payload buffer
reference being overwritten before cleanup, leaking it"); `ble_hs_tx_data`
consumes the framed buffer on success and returns a nonzero status without
consuming it on failure (§4.5 steps 3–4).

The body mirrors the source: `om = ble_l2cap_prepend_hdr(om, cid)` — on
`NULL`, `rc = ENOMEM; goto err`; otherwise `rc = ble_hs_tx_data(om)` — on
nonzero, `goto err`; the `err` label runs `os_mbuf_free_chain(om)`, where
`om` is `NULL` after a failed prepend (freeing nothing) and the framed
buffer after a failed send. -/
def ble_l2cap_tx (env : TxEnv) : TxOutcome :=
  if env.prependOk then
    if env.txRc = 0 then
      { rc := 0, origDisposals := 1, framedDisposals := 1 }
    else
      { rc := env.txRc, origDisposals := 1, framedDisposals := 1 }
  else
    { rc := ENOMEM, origDisposals := 0, framedDisposals := 0 }

/-- Modelled from the spec: the channel pool's `os_mempool` state — the
free set left by `os_mempool_init`, holding `BLE_L2CAP_CHAN_MAX` slots. -/
structure ChanPool where
  freeSlots : List Nat
  deriving DecidableEq, Repr

/-- Modelled from the spec: the pool as `ble_l2cap_init` leaves it —
`capacity` free slots (§4.1). -/
def poolInit : ChanPool :=
  { freeSlots := List.range BLE_L2CAP_CHAN_MAX }

/-- Modelled from the spec: `os_memblock_get` — takes the next free slot,
or returns `NULL` (`none`) when the pool is exhausted (§4.1 "Returns
Empty (not an error) when at capacity"). -/
def os_memblock_get (p : ChanPool) : Option Nat × ChanPool :=
  match p.freeSlots with
  | [] => (none, p)
  | s :: rest => (some s, { freeSlots := rest })

/-- Modelled from the spec: `os_memblock_put` — returns a slot to the free
set (§4.1). -/
def os_memblock_put (p : ChanPool) (s : Nat) : ChanPool :=
  { freeSlots := s :: p.freeSlots }

/-- `ble_l2cap_chan_alloc`: `os_memblock_get`, then
`memset(chan, 0, sizeof *chan)`; returns the slot with its
zero-initialized channel state, or `none` when the pool is exhausted. -/
def ble_l2cap_chan_alloc (p : ChanPool) : Option (Nat × Ble_l2cap_chan) × ChanPool :=
  match os_memblock_get p with
  | (none, p1) => (none, p1)
  | (some s, p1) => (some (s, zeroChan), p1)

/-- `ble_l2cap_chan_free`: a no-op on `NULL`, otherwise `os_memblock_put`
of the channel's slot. -/
def ble_l2cap_chan_free (p : ChanPool) (s : Option Nat) : ChanPool :=
  match s with
  | none => p
  | some s => os_memblock_put p s

/-- Running `ble_l2cap_chan_alloc` `n` times in sequence, collecting each
call's result. -/
def allocRun : Nat → ChanPool → List (Option (Nat × Ble_l2cap_chan)) × ChanPool
  | 0, p => ([], p)
  | n + 1, p =>
      let r := ble_l2cap_chan_alloc p
      let rest := allocRun n r.2
      (r.1 :: rest.1, rest.2)

/-- Helper: `os_mbuf_copydata` fails when fewer than 4 bytes are available
at `off`, so `ble_l2cap_parse_hdr` returns `EMSGSIZE`. -/
theorem parse_hdr_short (om : Mbuf) (off : Nat)
    (h : om.length < off + BLE_L2CAP_HDR_SZ) :
    ble_l2cap_parse_hdr om off = .error EMSGSIZE := by
  unfold ble_l2cap_parse_hdr
  rw [if_neg (by omega)]

/-- C3: ble_l2cap_chan_mtu is a pure function of the channel state — it
returns `blc_default_mtu` whenever the `TXED_MTU` flag is clear or
`blc_peer_mtu` is zero, and otherwise `min(blc_my_mtu, blc_peer_mtu)`. -/
theorem chan_mtu_cases (chan : Ble_l2cap_chan) :
    (¬ txed_local_mtu chan ∨ chan.blc_peer_mtu = 0 →
      ble_l2cap_chan_mtu chan = chan.blc_default_mtu) ∧
    (txed_local_mtu chan → chan.blc_peer_mtu ≠ 0 →
      ble_l2cap_chan_mtu chan = Nat.min chan.blc_my_mtu chan.blc_peer_mtu) := by
  unfold ble_l2cap_chan_mtu txed_local_mtu
  constructor
  · intro h
    rw [if_pos]
    rcases h with h | h
    · exact Or.inl (not_not.mp h)
    · exact Or.inr h
  · intro h1 h2
    rw [if_neg]
    push_neg
    exact ⟨h1, h2⟩

/-- Witness for `chan_mtu_cases` at two concrete channel states: one with
the flag clear (default MTU used) and one with the flag set and a nonzero
peer MTU (minimum of the exchanged values used). -/
theorem chan_mtu_cases_witness :
    ble_l2cap_chan_mtu ⟨4, 100, 50, 23, 0, none⟩ = 23 ∧
    ble_l2cap_chan_mtu ⟨4, 100, 50, 23, 1, none⟩ = Nat.min 100 50 :=
  ⟨(chan_mtu_cases ⟨4, 100, 50, 23, 0, none⟩).1 (Or.inl (by decide)),
   (chan_mtu_cases ⟨4, 100, 50, 23, 1, none⟩).2 (by decide) (by decide)⟩

/-- C2 counterexample: a channel that has transmitted its local MTU and
received peer MTU 1, with local MTU 1 and default MTU 23; the computed MTU
is 1 < 23, so `assert(mtu >= chan->blc_default_mtu)` fails — the claimed
invariant does not hold over all channel states. -/
theorem chan_mtu_assert_cex :
    ¬ ble_l2cap_chan_mtu_assert ⟨4, 1, 1, 23, 1, none⟩ := by decide

/-- C2 (amended): for every channel state whose exchanged MTU values
respect the floor — `blc_my_mtu ≥ blc_default_mtu` and `blc_peer_mtu`
either zero or `≥ blc_default_mtu` — the computed MTU is at least
`blc_default_mtu`, i.e. the trailing assertion holds. -/
theorem chan_mtu_ge_default (chan : Ble_l2cap_chan)
    (h1 : chan.blc_default_mtu ≤ chan.blc_my_mtu)
    (h2 : chan.blc_peer_mtu = 0 ∨ chan.blc_default_mtu ≤ chan.blc_peer_mtu) :
    ble_l2cap_chan_mtu_assert chan := by
  unfold ble_l2cap_chan_mtu_assert ble_l2cap_chan_mtu
  split
  · exact Nat.le_refl _
  · rename_i h
    push_neg at h
    rcases h2 with h2 | h2
    · exact absurd h2 h.2
    · exact Nat.le_min.mpr ⟨h1, h2⟩

/-- Witness for `chan_mtu_ge_default` at a concrete channel state. -/
theorem chan_mtu_ge_default_witness :
    ble_l2cap_chan_mtu_assert ⟨4, 100, 50, 23, 1, none⟩ :=
  chan_mtu_ge_default ⟨4, 100, 50, 23, 1, none⟩ (by decide) (Or.inr (by decide))

/-- C7: serializing any pair `(length, cid)` of 16-bit values as the
4-byte little-endian header and parsing the result at offset 0 yields back
exactly `(length, cid)`.  The model is byte-level, so the result does not
depend on any host byte order. -/
theorem parse_serialize_roundtrip (len cid : Nat)
    (h1 : len ≤ 65535) (h2 : cid ≤ 65535) :
    ble_l2cap_parse_hdr (serialize_hdr len cid) 0 =
      .ok { blh_len := len, blh_cid := cid } := by
  have h256 : len % 256 + 256 * (len / 256 % 256) = len := by omega
  have h256c : cid % 256 + 256 * (cid / 256 % 256) = cid := by omega
  unfold ble_l2cap_parse_hdr serialize_hdr le16_bytes BLE_L2CAP_HDR_SZ
  rw [if_pos (by simp)]
  simp only [Except.ok.injEq]
  show Ble_l2cap_hdr.mk (len % 256 + 256 * (len / 256 % 256))
      (cid % 256 + 256 * (cid / 256 % 256)) = _
  rw [h256, h256c]

/-- Witness for `parse_serialize_roundtrip` at `length = 2`, `cid = 4`. -/
theorem parse_serialize_roundtrip_witness :
    ble_l2cap_parse_hdr (serialize_hdr 2 4) 0 =
      .ok { blh_len := 2, blh_cid := 4 } :=
  parse_serialize_roundtrip 2 4 (by decide) (by decide)

/-- C9: when fewer than 4 bytes are available at `off`,
`ble_l2cap_parse_hdr` fails with `EMSGSIZE` and produces no header; when
at least 4 bytes are available it succeeds, and it reads exactly those 4
bytes — appending any further bytes to the buffer leaves the result
unchanged. -/
theorem parse_hdr_spec (om : Mbuf) (off : Nat) :
    (om.length < off + BLE_L2CAP_HDR_SZ →
      ble_l2cap_parse_hdr om off = .error EMSGSIZE) ∧
    (off + BLE_L2CAP_HDR_SZ ≤ om.length →
      (∃ hdr, ble_l2cap_parse_hdr om off = .ok hdr) ∧
      ∀ rest : Mbuf, ble_l2cap_parse_hdr (om ++ rest) off = ble_l2cap_parse_hdr om off) := by
  constructor
  · exact parse_hdr_short om off
  · intro h
    constructor
    · exact ⟨_, by unfold ble_l2cap_parse_hdr; rw [if_pos h]⟩
    · intro rest
      unfold ble_l2cap_parse_hdr
      rw [if_pos h, if_pos (by simp; omega)]
      have hb : ∀ i, i < om.length → (om ++ rest).getD i 0 = om.getD i 0 := by
        intro i hi
        simp [List.getD, List.getElem?_append_left hi]
      unfold BLE_L2CAP_HDR_SZ at h
      rw [hb off (by omega), hb (off + 1) (by omega),
          hb (off + 2) (by omega), hb (off + 3) (by omega)]

/-- Witness for `parse_hdr_spec`: a 3-byte buffer is rejected with
`EMSGSIZE`; a 4-byte buffer parses, and appending two payload bytes does
not change the parse. -/
theorem parse_hdr_spec_witness :
    ble_l2cap_parse_hdr [1, 2, 3] 0 = .error EMSGSIZE ∧
    ble_l2cap_parse_hdr ([2, 0, 4, 0] ++ [170, 187]) 0 =
      ble_l2cap_parse_hdr [2, 0, 4, 0] 0 :=
  ⟨(parse_hdr_spec [1, 2, 3] 0).1 (by decide),
   ((parse_hdr_spec [2, 0, 4, 0] 0).2 (by decide)).2 [170, 187]⟩

/-- C4: for every unfragmented inbound frame whose parsed header carries a
length different from the HCI-declared total length minus 4,
`ble_l2cap_rx` returns `EMSGSIZE`, the frame is dropped without being
delivered (the handler is never invoked), no channel lookup is performed,
and no channel state changes. -/
theorem rx_len_mismatch (rxFn : RxFn) (conn : Conn) (hci_hdr : HciDataHdr)
    (om : Mbuf) (hpb : hci_hdr.pb = BLE_HCI_PB_FULL) (hdr : Ble_l2cap_hdr)
    (hparse : ble_l2cap_parse_hdr om 0 = .ok hdr)
    (hlen : (hdr.blh_len : Int) ≠ (hci_hdr.hdh_len : Int) - 4) :
    ble_l2cap_rx rxFn conn hci_hdr om =
      some { rc := EMSGSIZE, lookupPerformed := false, handlerCalls := 0,
             conn := conn, disposed := [] } := by
  unfold ble_l2cap_rx
  rw [if_neg (by simp [hpb]), hparse]
  have h4 : (BLE_L2CAP_HDR_SZ : Int) = 4 := rfl
  simp only [h4, hlen, if_pos, ne_eq, not_false_eq_true, if_true]

/-- Witness for `rx_len_mismatch`: a frame declaring payload length 5 while
the HCI header declares 4 total bytes (expected payload length 0). -/
theorem rx_len_mismatch_witness :
    ble_l2cap_rx (fun _ _ _ => (0, none)) [] ⟨BLE_HCI_PB_FULL, 4⟩ [5, 0, 1, 0] =
      some { rc := EMSGSIZE, lookupPerformed := false, handlerCalls := 0,
             conn := [], disposed := [] } :=
  rx_len_mismatch (fun _ _ _ => (0, none)) [] ⟨BLE_HCI_PB_FULL, 4⟩ [5, 0, 1, 0]
    rfl { blh_len := 5, blh_cid := 1 } rfl (by decide)

/-- C5 counterexample: an unfragmented, length-consistent frame with CID 7
on a connection with no channels.  `ble_l2cap_rx` returns `ENOENT` and
invokes no handler, but its disposed-buffer list is empty — the inbound
buffer is not disposed by the receive path, contrary to the claim. -/
theorem rx_chan_not_found_cex :
    ble_l2cap_rx (fun _ _ _ => (0, none)) [] ⟨BLE_HCI_PB_FULL, 4⟩ [0, 0, 7, 0] =
      some { rc := ENOENT, lookupPerformed := true, handlerCalls := 0,
             conn := [], disposed := [] } := by decide

/-- C5 (amended): for every unfragmented, length-consistent inbound frame
whose CID resolves to no channel, `ble_l2cap_rx` returns `ENOENT`, no
handler is invoked, and the function disposes nothing — disposal of the
inbound buffer is left to the caller. -/
theorem rx_chan_not_found (rxFn : RxFn) (conn : Conn) (hci_hdr : HciDataHdr)
    (om : Mbuf) (hpb : hci_hdr.pb = BLE_HCI_PB_FULL) (hdr : Ble_l2cap_hdr)
    (hparse : ble_l2cap_parse_hdr om 0 = .ok hdr)
    (hlen : (hdr.blh_len : Int) = (hci_hdr.hdh_len : Int) - 4)
    (hfind : ble_hs_conn_chan_find conn hdr.blh_cid = none) :
    ble_l2cap_rx rxFn conn hci_hdr om =
      some { rc := ENOENT, lookupPerformed := true, handlerCalls := 0,
             conn := conn, disposed := [] } := by
  unfold ble_l2cap_rx
  rw [if_neg (by simp [hpb]), hparse]
  dsimp only
  have h4 : ((BLE_L2CAP_HDR_SZ : Nat) : Int) = 4 := rfl
  rw [if_neg (by rw [h4]; exact not_not_intro hlen), hfind]

/-- Witness for `rx_chan_not_found` at the same concrete frame as the
counterexample. -/
theorem rx_chan_not_found_witness :
    ble_l2cap_rx (fun _ _ _ => (0, none)) [] ⟨BLE_HCI_PB_FULL, 4⟩ [0, 0, 7, 0] =
      some { rc := ENOENT, lookupPerformed := true, handlerCalls := 0,
             conn := [], disposed := [] } :=
  rx_chan_not_found (fun _ _ _ => (0, none)) [] ⟨BLE_HCI_PB_FULL, 4⟩ [0, 0, 7, 0]
    rfl { blh_len := 0, blh_cid := 7 } rfl (by decide) (by decide)

/-- C6: `ble_l2cap_rx_payload` requires the receive slot to be empty on
entry — an occupied slot is a fatal assertion (`none`), not a returned
status.  With an empty slot it installs the inbound buffer, invokes the
handler exactly once on the channel whose slot holds that buffer, then
regardless of the handler's status frees whatever the handler left in the
slot, resets the slot to empty, and returns the handler's status. -/
theorem rx_payload_slot_discipline (rxFn : RxFn) (conn : Conn)
    (chan : Ble_l2cap_chan) (om : Mbuf) :
    (chan.blc_rx_buf = none →
      ble_l2cap_rx_payload rxFn conn chan om =
        some { rc := (rxFn conn { chan with blc_rx_buf := some om } (some om)).1,
               chan := { chan with blc_rx_buf := none },
               handlerCalls := 1,
               disposed := free_chain
                 (rxFn conn { chan with blc_rx_buf := some om } (some om)).2 }) ∧
    (chan.blc_rx_buf ≠ none → ble_l2cap_rx_payload rxFn conn chan om = none) := by
  constructor
  · intro h
    unfold ble_l2cap_rx_payload
    rw [if_neg (by simp [h])]
  · intro h
    unfold ble_l2cap_rx_payload
    rw [if_pos h]

/-- Witness for `rx_payload_slot_discipline`: a handler that returns
status 7 and leaves a replacement buffer in the slot — the replacement is
freed, the slot ends empty, status 7 is propagated; and an occupied slot
aborts (`none`). -/
theorem rx_payload_slot_discipline_witness :
    ble_l2cap_rx_payload (fun _ _ _ => (7, some [9])) [] zeroChan [1, 2] =
      some { rc := 7, chan := zeroChan, handlerCalls := 1, disposed := [[9]] } ∧
    ble_l2cap_rx_payload (fun _ _ _ => (7, some [9])) []
      { zeroChan with blc_rx_buf := some [3] } [1, 2] = none :=
  ⟨(rx_payload_slot_discipline (fun _ _ _ => (7, some [9])) [] zeroChan [1, 2]).1 rfl,
   (rx_payload_slot_discipline (fun _ _ _ => (7, some [9])) []
      { zeroChan with blc_rx_buf := some [3] } [1, 2]).2 (by decide)⟩

/-- C10: both receive-path rejections — a header too short to parse and a
header length disagreeing with the HCI-declared length — make
`ble_l2cap_rx` return the same status value `EMSGSIZE` (with the identical
overall outcome), so the caller cannot tell the two failure modes apart
from the return value alone. -/
theorem rx_emsgsize_indistinguishable (rxFn : RxFn) (conn : Conn)
    (hci_hdr : HciDataHdr) (om : Mbuf)
    (hpb : hci_hdr.pb = BLE_HCI_PB_FULL) :
    (om.length < BLE_L2CAP_HDR_SZ →
      ble_l2cap_rx rxFn conn hci_hdr om =
        some { rc := EMSGSIZE, lookupPerformed := false, handlerCalls := 0,
               conn := conn, disposed := [] }) ∧
    (∀ hdr : Ble_l2cap_hdr, ble_l2cap_parse_hdr om 0 = .ok hdr →
      (hdr.blh_len : Int) ≠ (hci_hdr.hdh_len : Int) - 4 →
      ble_l2cap_rx rxFn conn hci_hdr om =
        some { rc := EMSGSIZE, lookupPerformed := false, handlerCalls := 0,
               conn := conn, disposed := [] }) := by
  constructor
  · intro h
    unfold ble_l2cap_rx
    rw [if_neg (by simp [hpb]), parse_hdr_short om 0 (by omega)]
  · intro hdr hparse hlen
    unfold ble_l2cap_rx
    rw [if_neg (by simp [hpb]), hparse]
    have h4 : (BLE_L2CAP_HDR_SZ : Int) = 4 := rfl
    simp only [h4, hlen, ne_eq, not_false_eq_true, if_true]

/-- Witness for `rx_emsgsize_indistinguishable`: a 2-byte frame and a
length-inconsistent frame produce the very same outcome. -/
theorem rx_emsgsize_indistinguishable_witness :
    ble_l2cap_rx (fun _ _ _ => (0, none)) [] ⟨BLE_HCI_PB_FULL, 4⟩ [1, 2] =
      some { rc := EMSGSIZE, lookupPerformed := false, handlerCalls := 0,
             conn := [], disposed := [] } ∧
    ble_l2cap_rx (fun _ _ _ => (0, none)) [] ⟨BLE_HCI_PB_FULL, 4⟩ [9, 0, 1, 0] =
      some { rc := EMSGSIZE, lookupPerformed := false, handlerCalls := 0,
             conn := [], disposed := [] } :=
  ⟨(rx_emsgsize_indistinguishable (fun _ _ _ => (0, none)) [] ⟨BLE_HCI_PB_FULL, 4⟩
      [1, 2] rfl).1 (by decide),
   (rx_emsgsize_indistinguishable (fun _ _ _ => (0, none)) [] ⟨BLE_HCI_PB_FULL, 4⟩
      [9, 0, 1, 0] rfl).2 { blh_len := 9, blh_cid := 1 } rfl (by decide)⟩

/-- C1 (code-bug evaluation): when `os_mbuf_prepend` fails inside
`ble_l2cap_prepend_hdr`, `ble_l2cap_tx` does return `ENOMEM`, but the
original payload buffer is disposed zero times — `om` has been overwritten
with `NULL` before the `err` path calls `os_mbuf_free_chain`, so the
buffer leaks, contradicting the documented contract that the supplied mbuf
is consumed regardless of outcome (single disposal on every branch). -/
theorem tx_prepend_fail_leak :
    ble_l2cap_tx { prependOk := false, txRc := 0 } =
      { rc := ENOMEM, origDisposals := 0, framedDisposals := 0 } := rfl

/-- C8: from a freshly initialized pool of capacity 32, allocation
succeeds exactly 32 consecutive times, each success handing out a
zero-initialized channel (slots 0..31 in order); the 33rd call returns
`none`; and after freeing one live channel (slot 5) the next allocation
succeeds again, reusing exactly the freed slot. -/
theorem chan_pool_lifecycle :
    (allocRun BLE_L2CAP_CHAN_MAX poolInit).1 =
      (List.range BLE_L2CAP_CHAN_MAX).map (fun s => some (s, zeroChan)) ∧
    (ble_l2cap_chan_alloc (allocRun BLE_L2CAP_CHAN_MAX poolInit).2).1 = none ∧
    (ble_l2cap_chan_alloc
      (ble_l2cap_chan_free (allocRun BLE_L2CAP_CHAN_MAX poolInit).2 (some 5))).1 =
      some (5, zeroChan) := by
  refine ⟨?_, ?_, ?_⟩ <;> decide

end BleL2cap
